import Mathlib

/-!
Verification development for the Inverse Perspective Mapping pipeline
(`src/main.cpp`, `src/Logger.h`).

The C++ code is shallowly embedded: `cv::Mat` becomes a `Mat` structure of
dimensions plus row-major pixel data, durations measured by the
`high_resolution_clock` become explicit `Nat` microsecond readings supplied as
inputs, `double` arithmetic on times is modelled exactly over `ℚ` (the values
involved are small integer counts divided by powers of ten), and the OpenCV
perspective-transform computation — whose failure mode the code catches — is a
parameter returning `Option`.  Pixel resampling in `resize` is modelled as
nearest-neighbour sampling with truncating division, since OpenCV's default
bilinear interpolation is floating-point; no claim below depends on resampled
pixel values, only on dimensions and on frames being returned unchanged.
-/

namespace IPMPipeline

/-- Model of `cv::Mat`: a raster with `rows × cols` pixels stored row-major.
Pixels are abstracted to a single `Nat` channel value. -/
structure Mat where
  rows : Nat
  cols : Nat
  data : List Nat
deriving Repr, DecidableEq

/-- `cv::Mat::empty()`: true when the matrix has no pixels (zero area). -/
def Mat.isEmpty (m : Mat) : Bool := m.rows * m.cols == 0

/-- Pixel accessor with out-of-range default, row-major layout. -/
def Mat.px (m : Mat) (r c : Nat) : Nat := m.data.getD (r * m.cols + c) 0

/-- Model of `cv::resize(img, dst, Size(w, h))`: the destination always has
exactly the requested size `w × h`; pixels are sampled nearest-neighbour from
the source. -/
def cvResize (img : Mat) (w h : Nat) : Mat :=
  { rows := h, cols := w,
    data := ((List.range h).map (fun r =>
      (List.range w).map (fun c => img.px (r * img.rows / h) (c * img.cols / w)))).flatten }

/-- Model of `cv::copyMakeBorder(img, dst, b, b, b, b, BORDER_CONSTANT, white)`:
pads `b` pixels of constant white (255) on all four sides. -/
def copyMakeBorder (img : Mat) (b : Nat) : Mat :=
  { rows := img.rows + 2 * b, cols := img.cols + 2 * b,
    data := ((List.range (img.rows + 2 * b)).map (fun r =>
      (List.range (img.cols + 2 * b)).map (fun c =>
        if b ≤ r ∧ r < b + img.rows ∧ b ≤ c ∧ c < b + img.cols then
          img.px (r - b) (c - b)
        else 255))).flatten }

/-- Model of `overlay.copyTo(main(Rect(x, y, overlay.cols, overlay.rows)))`:
the main frame with the rectangle at `(x, y)` replaced by the overlay. -/
def pasteROI (main overlay : Mat) (x y : Nat) : Mat :=
  { rows := main.rows, cols := main.cols,
    data := ((List.range main.rows).map (fun r =>
      (List.range main.cols).map (fun c =>
        if y ≤ r ∧ r < y + overlay.rows ∧ x ≤ c ∧ c < x + overlay.cols then
          overlay.px (r - y) (c - x)
        else main.px r c))).flatten }

/-- Source quadrilateral of `IPM` (`main.cpp` lines 71-76): lower half of the
frame offset by `param2 = 35`. Coordinates are exact integers (the `Point2f`
values are constructed from `int`s, exactly representable in `float`). -/
def ipmSrcQuad (w h : Nat) : List (Int × Int) :=
  [(0, (h / 2 : Nat) + 35), ((w : Int), (h / 2 : Nat) + 35), ((w : Int), (h : Int)), (0, (h : Int))]

/-- Destination quadrilateral of `IPM` (`main.cpp` lines 79-84) with
`param1 = 570`. -/
def ipmDstQuad (w h : Nat) : List (Int × Int) :=
  [(0, 0), ((w : Int), 0), ((w : Int) - 570, 2 * (h : Int)), (570, 2 * (h : Int))]

/-- Model of `IPM` (`main.cpp` lines 59-109).  The perspective-transform
computation `getPerspectiveTransform` and the warp `warpPerspective` are
parameters: `getPT` returns `none` exactly when the OpenCV call would throw
(the `catch` at line 105), `warp image m w h` is the warp of `image` into a
`w × h` canvas.  On success the warped `(width, 2·height)` canvas is resized
back to `(width, height)`; on failure the original image is returned. -/
def IPM {T : Type} (getPT : List (Int × Int) → List (Int × Int) → Option T)
    (warp : Mat → T → Nat → Nat → Mat) (image : Mat) : Mat :=
  let height := image.rows
  let width := image.cols
  match getPT (ipmSrcQuad width height) (ipmDstQuad width height) with
  | some matrix => cvResize (warp image matrix width (height * 2)) width height
  | none => image

/-- The timing check inside `IPM` (`main.cpp` lines 95-101): the elapsed time is
taken with `duration_cast<milliseconds>`, then `ms = duration.count() / 1000.0`,
and a slow-processing warning is emitted iff `ms > 10.0`.  `elapsed_ms` is the
integer millisecond count of the measured duration. -/
def ipmSlowWarning (elapsed_ms : Nat) : Bool := decide ((elapsed_ms : ℚ) / 1000 > 10)

/-- Log events of the pipeline relevant to the verified properties, each
standing for one `Logger` emission in the source (the full message strings
carry exactly these distinctions). -/
inductive LogEvent where
  /-- `LOG_WARNING("Failed to read image: " + path + " - skipping")`. -/
  | readFail (path : String)
  /-- `Logger::endTimer` miss: `log(WARNING, "Timer not found for operation: " + op)`. -/
  | timerNotFound (op : String)
  /-- `Logger::endTimer` hit: `log(INFO, "PERF | " + op + ": " + ms + "ms")`. -/
  | timerElapsed (op : String) (ms : ℚ)
  /-- `LOG_ERROR("PIP: One or both images are empty")`. -/
  | pipEmptyError
  /-- `LOG_ERROR("PIP failed: ...")` from the `catch` in `pictureInPicture`. -/
  | pipFailed
  /-- `Logger::logFrameRate`. -/
  | frameRate (fps : ℚ)
  /-- `Logger::logPerformance`. -/
  | perfMetric (label : String) (value : ℚ)
  /-- `LOG_WARNING("Frame ... processing slow: ...")`. -/
  | slowFrame (n : Nat) (ms : ℚ)
deriving Repr, DecidableEq

/-- The geometry computed by `pictureInPicture` (`main.cpp` lines 121-136):
inset size after resize, bordered size, and the signed placement offsets.
`new_width` models `static_cast<int>(new_height * (overlay.cols / overlay.rows))`
with exact truncating division. -/
structure PipGeom where
  new_width : Nat
  new_height : Nat
  bw : Nat
  bh : Nat
  x_offset : Int
  y_offset : Int
deriving Repr, DecidableEq

/-- Computes the placement geometry of `pictureInPicture`. -/
def pipGeom (main_image overlay_image : Mat) (img_ratio border_size x_margin : Nat)
    (y_offset_adjust : Int) : PipGeom :=
  let new_height := main_image.rows / img_ratio
  let new_width := new_height * overlay_image.cols / overlay_image.rows
  let bw := new_width + 2 * border_size
  let bh := new_height + 2 * border_size
  { new_width := new_width, new_height := new_height, bw := bw, bh := bh,
    x_offset := (main_image.cols : Int) - (bw : Int) - (x_margin : Int),
    y_offset := ((main_image.rows / 2 : Nat) : Int) - (bh : Int) + y_offset_adjust }

/-- The bounds check at `main.cpp` lines 139-141: the bordered inset fits iff
both offsets are non-negative and the rectangle ends within the main frame. -/
def pipFitsCheck (main_image overlay_image : Mat) (img_ratio border_size x_margin : Nat)
    (y_offset_adjust : Int) : Bool :=
  let g := pipGeom main_image overlay_image img_ratio border_size x_margin y_offset_adjust
  decide (0 ≤ g.x_offset ∧ 0 ≤ g.y_offset ∧
    g.x_offset + (g.bw : Int) ≤ (main_image.cols : Int) ∧
    g.y_offset + (g.bh : Int) ≤ (main_image.rows : Int))

/-- Model of `pictureInPicture` (`main.cpp` lines 112-153), returning the result
frame together with the log events it emits.  The empty-input check returns the
main frame with an error; a zero-sized resize target makes `cv::resize` throw,
which the `catch` at line 149 turns into the unmodified main frame; otherwise
the bordered inset is pasted exactly when the bounds check passes, and the main
frame is returned unchanged when it does not. -/
def pictureInPicture (main_image overlay_image : Mat)
    (img_ratio border_size x_margin : Nat) (y_offset_adjust : Int) :
    Mat × List LogEvent :=
  if main_image.isEmpty || overlay_image.isEmpty then
    (main_image, [.pipEmptyError])
  else
    let g := pipGeom main_image overlay_image img_ratio border_size x_margin y_offset_adjust
    if g.new_width = 0 ∨ g.new_height = 0 then
      (main_image, [.pipFailed])
    else
      let overlay_resized := cvResize overlay_image g.new_width g.new_height
      let overlay_with_border := copyMakeBorder overlay_resized border_size
      if pipFitsCheck main_image overlay_image img_ratio border_size x_margin y_offset_adjust then
        (pasteROI main_image overlay_with_border g.x_offset.toNat g.y_offset.toNat, [])
      else
        (main_image, [])

/-- State of `PerformanceTracker` (`main.cpp` lines 16-56).  Times are the
`double` millisecond sums, modelled over `ℚ`; `last_fps_time` is a
`high_resolution_clock` reading in microseconds. -/
structure PerfTracker where
  frame_count : Nat
  total_processing_time : ℚ
  total_ipm_time : ℚ
  total_pip_time : ℚ
  last_fps_time : Nat
deriving Repr, DecidableEq

/-- The block emitted by `updateFrameStats` every 30th frame (`main.cpp`
lines 33-45): instantaneous fps and the three running averages. -/
structure FpsEmission where
  fps : ℚ
  avgProcessing : ℚ
  avgIpm : ℚ
  avgPip : ℚ
deriving Repr, DecidableEq

/-- Model of `PerformanceTracker::updateFrameStats` (`main.cpp` lines 27-46).
`now` is the clock reading in microseconds; `time_diff` is
`duration_cast<milliseconds>`, hence the truncating division by 1000, and
`fps = 30000.0 / time_diff.count()`. -/
def updateFrameStats (t : PerfTracker) (now : Nat)
    (processing_time ipm_time pip_time : ℚ) : PerfTracker × Option FpsEmission :=
  let fc := t.frame_count + 1
  let tp := t.total_processing_time + processing_time
  let ti := t.total_ipm_time + ipm_time
  let tpp := t.total_pip_time + pip_time
  if fc % 30 = 0 then
    let time_diff : Nat := (now - t.last_fps_time) / 1000
    (⟨fc, tp, ti, tpp, now⟩,
     some ⟨30000 / (time_diff : ℚ), tp / (fc : ℚ), ti / (fc : ℚ), tpp / (fc : ℚ)⟩)
  else
    (⟨fc, tp, ti, tpp, t.last_fps_time⟩, none)

/-- The end-of-run summary emitted by `PerformanceTracker::logSummary`. -/
structure PerfSummary where
  frames : Nat
  avgProcessing : ℚ
  avgIpm : ℚ
  avgPip : ℚ
deriving Repr, DecidableEq

/-- Model of `PerformanceTracker::logSummary` (`main.cpp` lines 47-55): emits
the summary only when at least one frame was recorded. -/
def logSummary (t : PerfTracker) : Option PerfSummary :=
  if t.frame_count > 0 then
    some ⟨t.frame_count, t.total_processing_time / (t.frame_count : ℚ),
          t.total_ipm_time / (t.frame_count : ℚ), t.total_pip_time / (t.frame_count : ℚ)⟩
  else none

/-- Lookup in the `Logger` timer map (`std::map<string, time_point>`),
represented as an association list with unique keys. -/
def findTimer : List (String × Nat) → String → Option Nat
  | [], _ => none
  | e :: es, op => if e.1 = op then some e.2 else findTimer es op

/-- `Logger::startTimer` (`Logger.h` lines 58-61): `timers[op] = now`. -/
def setTimer (m : List (String × Nat)) (op : String) (now : Nat) : List (String × Nat) :=
  (op, now) :: m.filter (fun e => e.1 ≠ op)

/-- `Logger::endTimer` (`Logger.h` lines 62-76): when the timer is found its
elapsed microseconds are divided by 1000.0 and logged, and the entry erased;
otherwise a "Timer not found" warning is logged and the map is unchanged. -/
def endTimer (m : List (String × Nat)) (op : String) (now : Nat) :
    List (String × Nat) × LogEvent :=
  match findTimer m op with
  | some start => (m.filter (fun e => e.1 ≠ op),
                   .timerElapsed op (((now - start : Nat) : ℚ) / 1000))
  | none => (m, .timerNotFound op)

/-- The real-time check of `processImageSequence` (`main.cpp` lines 255-260):
warn iff `total_frame_time > 1000.0 / fps`. -/
def imageSlowWarning (fps total_frame_time : ℚ) : Bool := decide (total_frame_time > 1000 / fps)

/-- The real-time check of `processVideo` (`main.cpp` lines 393-396):
warn iff `total_frame_time > 30`, a hard-coded 30 fps target independent of the
stream's frame rate. -/
def videoSlowWarning (total_frame_time : ℚ) : Bool := decide (total_frame_time > 30)

/-- The log events of one `updateFrameStats` emission (`main.cpp` lines 38-43):
nothing when the 30-frame window is not full, otherwise the frame rate and the
three running averages. -/
def fpsEmissionEvents : Option FpsEmission → List LogEvent
  | some em => [.frameRate em.fps, .perfMetric "Avg Processing Time" em.avgProcessing,
                .perfMetric "Avg IPM Time" em.avgIpm, .perfMetric "Avg PIP Time" em.avgPip]
  | none => []

/-- One iteration's inputs to the `processImageSequence` loop: the path read,
the `imread` result (an empty `Mat` models a failed read), and the
`high_resolution_clock` readings (microseconds) taken during the iteration. -/
structure FrameRead where
  path : String
  img : Mat
  tStart : Nat
  tIpmStart : Nat
  tIpmEnd : Nat
  tPipStart : Nat
  tPipEnd : Nat
  tEnd : Nat
deriving Repr, DecidableEq

/-- Output of one loop iteration body: updated timer map and tracker, the log
events the iteration emitted, and whether a frame was written to the sink. -/
structure StepOut where
  timers : List (String × Nat)
  tracker : PerfTracker
  newEvents : List LogEvent
  wrote : Bool
deriving Repr

/-- Body of the per-image loop of `processImageSequence` (`main.cpp`
lines 205-271) for one frame, as a function of the mutable state it touches.
A failed read logs a warning and skips (`continue`); otherwise the frame is
resized to the target size, `IPM` timed under the *started* name
"IPM Transform" but *ended* under "IPM_Transform" (lines 223 and 227 of the
source differ in that character), the overlay composed and its timer
started/ended under the matching name "PIP_Overlay", the frame written, the
tracker updated, and the over-budget warning emitted per `imageSlowWarning`.
The `imshow`/`waitKey` display calls and the per-100-frames progress log do not
affect any verified state and are omitted. -/
def stepCore (fps : ℚ) (W H : Nat) {T : Type}
    (getPT : List (Int × Int) → List (Int × Int) → Option T)
    (warp : Mat → T → Nat → Nat → Mat)
    (timers : List (String × Nat)) (tracker : PerfTracker) (fn : Nat)
    (r : FrameRead) : StepOut :=
  if r.img.isEmpty then
    { timers := timers, tracker := tracker, newEvents := [.readFail r.path], wrote := false }
  else
    let frame := cvResize r.img W H
    let t1 := setTimer timers "IPM Transform" r.tIpmStart
    let frame_ipm := IPM getPT warp frame
    let p1 := endTimer t1 "IPM_Transform" r.tIpmEnd
    let t2 := setTimer p1.1 "PIP_Overlay" r.tPipStart
    let pip := pictureInPicture frame frame_ipm 3 3 30 (-100)
    let p2 := endTimer t2 "PIP_Overlay" r.tPipEnd
    let ipm_time : ℚ := ((r.tIpmEnd - r.tIpmStart : Nat) : ℚ) / 1000
    let pip_time : ℚ := ((r.tPipEnd - r.tPipStart : Nat) : ℚ) / 1000
    let total_frame_time : ℚ := ((r.tEnd - r.tStart : Nat) : ℚ) / 1000
    let u := updateFrameStats tracker r.tEnd total_frame_time ipm_time pip_time
    let emissionEvents : List LogEvent := fpsEmissionEvents u.2
    let slowEvents : List LogEvent :=
      if imageSlowWarning fps total_frame_time then [.slowFrame fn total_frame_time] else []
    { timers := p2.1, tracker := u.1,
      newEvents := [p1.2] ++ pip.2 ++ [p2.2] ++ emissionEvents ++ slowEvents, wrote := true }

/-- Accumulated state of the `processImageSequence` loop: `written` counts
`out.write` calls (frames delivered to the output sink). -/
structure LoopState where
  timers : List (String × Nat)
  tracker : PerfTracker
  written : Nat
  events : List LogEvent
  frame_number : Nat
deriving Repr

/-- One full iteration of the `processImageSequence` loop. -/
def stepFrame (fps : ℚ) (W H : Nat) {T : Type}
    (getPT : List (Int × Int) → List (Int × Int) → Option T)
    (warp : Mat → T → Nat → Nat → Mat)
    (s : LoopState) (r : FrameRead) : LoopState :=
  let o := stepCore fps W H getPT warp s.timers s.tracker (s.frame_number + 1) r
  { timers := o.timers, tracker := o.tracker,
    written := s.written + (if o.wrote then 1 else 0),
    events := s.events ++ o.newEvents,
    frame_number := s.frame_number + 1 }

/-- Initial loop state: empty timer map, fresh tracker anchored at clock `t0`,
nothing written, no events, frame number 0 (`main.cpp` lines 191-203). -/
def initLoopState (t0 : Nat) : LoopState :=
  { timers := [], tracker := ⟨0, 0, 0, 0, t0⟩, written := 0, events := [], frame_number := 0 }

/-- The frame loop of `processImageSequence` (`main.cpp` lines 205-271) run to
source exhaustion (no interactive interrupt), over the per-frame read results
and clock readings `frames`. -/
def processImageSequenceLoop (fps : ℚ) (W H : Nat) {T : Type}
    (getPT : List (Int × Int) → List (Int × Int) → Option T)
    (warp : Mat → T → Nat → Nat → Mat)
    (t0 : Nat) (frames : List FrameRead) : LoopState :=
  frames.foldl (stepFrame fps W H getPT warp) (initLoopState t0)

/-- The extension list of `getImageFiles` (`main.cpp` line 156). -/
def valid_extensions : List String := [".jpg", ".jpeg", ".png"]

/-- ASCII lowercase of every character, the effect of the `::tolower` loop at
`main.cpp` line 165 in the C locale. -/
def lowerStr (s : String) : String := ⟨s.data.map Char.toLower⟩

/-- The last component of a path after the final `/`, as
`std::filesystem::path::filename`. -/
def filenameOf (p : String) : String :=
  ⟨(p.data.reverse.takeWhile (fun c => c ≠ '/')).reverse⟩

/-- Position of the last `.` in a character list, if any. -/
def lastDotPos : List Char → Option Nat
  | [] => none
  | c :: cs =>
    match lastDotPos cs with
    | some i => some (i + 1)
    | none => if c = '.' then some 0 else none

/-- `std::filesystem::path::extension`: the suffix of the filename from its
last dot, except that a leading dot (hidden file) and the special names `.`
and `..` give no extension. -/
def extensionOf (p : String) : String :=
  let f := filenameOf p
  if f = "." ∨ f = ".." then ""
  else
    match lastDotPos f.data with
    | none => ""
    | some 0 => ""
    | some i => ⟨f.data.drop i⟩

/-- Model of `getImageFiles` (`main.cpp` lines 155-179).  A directory entry is
a path together with its `is_regular_file()` status.  Regular files whose
lowercased extension is one of `valid_extensions` are kept and the result is
sorted lexicographically (`std::sort` with `std::string::operator<`). -/
def getImageFiles (entries : List (String × Bool)) : List String :=
  let image_files :=
    (entries.filter (fun e => e.2 && decide (lowerStr (extensionOf e.1) ∈ valid_extensions))).map
      (fun e => e.1)
  List.insertionSort (fun a b : String => a.data ≤ b.data) image_files

/-- The return value of `processVideo` (`main.cpp` lines 290-424) as a function
of whether the input capture and the output writer open: `-1` on either open
failure (lines 307-311 and 323-327), `0` otherwise (line 423). -/
def processVideoExit (capOpened outOpened : Bool) : Int :=
  if !capOpened then -1
  else if !outOpened then -1
  else 0

/-- The return value of `processImageSequence` (`main.cpp` lines 180-289) as a
function of the matched image files and whether the output writer opens: `-1`
when no valid image file is found (lines 187-190) or the writer fails to open
(lines 195-198), `0` otherwise (line 288). -/
def processImageSequenceExit (image_files : List String) (outOpened : Bool) : Int :=
  if image_files.isEmpty then -1
  else if !outOpened then -1
  else 0

/-- Environment of one run: whether the video capture opens, whether each
mode's output writer opens, and the image files matched in the directory. -/
structure CliEnv where
  capOpened : Bool
  videoOutOpened : Bool
  imageFiles : List String
  imagesOutOpened : Bool
deriving Repr

/-- Model of `main` (`main.cpp` lines 425-468); `args` is `argv[1:]`.  With no
arguments, or in `images` mode with no directory argument, `main` returns `-1`
early (lines 438 and 453).  On every other path the local `result` collects the
processing outcome (`-1` for an invalid mode, or the return of
`processVideo`/`processImageSequence`), but the function ends with `return 0;`
(line 467), discarding `result` — so those paths exit 0. -/
def mainExit (args : List String) (env : CliEnv) : Int :=
  match args with
  | [] => -1
  | mode :: rest =>
    if mode = "video" then
      let _result := processVideoExit env.capOpened env.videoOutOpened
      0
    else if mode = "images" then
      match rest with
      | [] => -1
      | _ :: _ =>
        let _result := processImageSequenceExit env.imageFiles env.imagesOutOpened
        0
    else
      let _result : Int := -1
      0

/-- Counts the `"Timer not found for operation: IPM_Transform"` warnings in a
log-event trace. -/
def countTnf (evs : List LogEvent) : Nat :=
  evs.countP (fun e =>
    match e with
    | .timerNotFound op => op == "IPM_Transform"
    | _ => false)

/-- Recognizes a successfully logged named-timer elapsed entry for the
rectification stage, under either spelling of its operation name. -/
def isIpmElapsed (e : LogEvent) : Bool :=
  match e with
  | .timerElapsed op _ => op == "IPM_Transform" || op == "IPM Transform"
  | _ => false

/-! ## Theorems -/

/-- C1: the claim says every fatal run (no arguments, unrecognized mode,
unopenable input video, empty image directory, unopenable output sink) exits
with code −1.  The code violates this: `main` collects the failure status in
its local `result` but unconditionally ends with `return 0;` (`main.cpp`
line 467), so an unrecognized mode and every `processVideo` /
`processImageSequence` failure exit with code 0; only the no-arguments and
missing-directory early returns actually exit −1. -/
theorem C1_exit_code_discarded :
    mainExit ["bogus"] ⟨true, true, ["a.jpg"], true⟩ = 0
    ∧ mainExit ["video", "missing.mp4"] ⟨false, true, [], true⟩ = 0
    ∧ processVideoExit false true = -1
    ∧ mainExit ["images", "dir"] ⟨true, true, [], true⟩ = 0
    ∧ processImageSequenceExit [] true = -1
    ∧ mainExit [] ⟨true, true, [], true⟩ = -1
    ∧ mainExit ["images"] ⟨true, true, [], true⟩ = -1 := by
  decide

/-- C2: for every frame with positive width and height, `IPM` returns a frame
of exactly the input's size, for any behaviour of the perspective-transform
computation and the warp; and whenever the transform computation fails
(`getPT` returns `none`, i.e. `getPerspectiveTransform` throws), `IPM` returns
the original frame pixel-identical.  The embedding is a total function, so no
exception escapes. -/
theorem C2_rectify_preserves_size {T : Type}
    (getPT : List (Int × Int) → List (Int × Int) → Option T)
    (warp : Mat → T → Nat → Nat → Mat) (image : Mat)
    (hw : 0 < image.cols) (hh : 0 < image.rows) :
    ((IPM getPT warp image).cols = image.cols ∧ (IPM getPT warp image).rows = image.rows)
    ∧ (getPT (ipmSrcQuad image.cols image.rows) (ipmDstQuad image.cols image.rows) = none →
        IPM getPT warp image = image) := by
  unfold IPM
  cases h : getPT (ipmSrcQuad image.cols image.rows) (ipmDstQuad image.cols image.rows) with
  | none => simp [h]
  | some m => simp [h, cvResize]

/-- Witness for C2 at a concrete 3×2 frame with an always-failing transform. -/
theorem C2_rectify_preserves_size_witness :
    (0 < (3 : Nat) ∧ 0 < (2 : Nat))
    ∧ IPM (fun _ _ => (none : Option Unit)) (fun i _ _ _ => i) ⟨2, 3, [0, 1, 2, 3, 4, 5]⟩
        = ⟨2, 3, [0, 1, 2, 3, 4, 5]⟩ :=
  ⟨⟨by decide, by decide⟩,
   (C2_rectify_preserves_size (fun _ _ => (none : Option Unit)) (fun i _ _ _ => i)
      ⟨2, 3, [0, 1, 2, 3, 4, 5]⟩ (by decide) (by decide)).2 rfl⟩

/-- C3: the claim says the slow-rectification warning fires iff the measured
rectification time exceeds 10 milliseconds.  The code takes the elapsed time
with `duration_cast<milliseconds>` and then divides the count by 1000.0
(`main.cpp` lines 96-97), so the comparison `ms > 10.0` actually fires only
beyond 10000 measured milliseconds: at an elapsed time of 50 ms — well over
the claimed 10 ms budget — no warning is emitted. -/
theorem C3_ipm_budget_unit_slip :
    ipmSlowWarning 50 = false
    ∧ (10 : Nat) < 50
    ∧ (∀ e : Nat, ipmSlowWarning e = true ↔ 10000 < e) := by
  refine ⟨by norm_num [ipmSlowWarning], by norm_num, fun e => ?_⟩
  simp only [ipmSlowWarning, gt_iff_lt, decide_eq_true_eq]
  rw [lt_div_iff₀ (by norm_num : (0 : ℚ) < 1000)]
  constructor
  · intro h
    exact_mod_cast h
  · intro h
    exact_mod_cast h

/-- C8 counterexample: the claim says in video mode the throughput warning
fires iff the frame's total time exceeds `1000/fps` ms.  For a stream with
`fps = 25` (reciprocal 40 ms) and a frame taking 35 ms the code warns anyway,
because `processVideo` compares against a hard-coded 30 (`main.cpp`
line 394). -/
theorem C8_video_reciprocal_counterexample :
    videoSlowWarning 35 = true ∧ ¬ ((35 : ℚ) > 1000 / 25) := by
  constructor
  · norm_num [videoSlowWarning]
  · norm_num

/-- C8 amended: in image-sequence mode the throughput warning fires iff the
frame's total wall time exceeds `1000/fps` ms (`main.cpp` lines 255-260); in
video mode it fires iff the total time exceeds a hard-coded 30 ms, regardless
of the stream's frame rate (`main.cpp` lines 393-396). -/
theorem C8_slow_warning_thresholds (fps total_frame_time : ℚ) :
    (imageSlowWarning fps total_frame_time = true ↔ total_frame_time > 1000 / fps)
    ∧ (videoSlowWarning total_frame_time = true ↔ total_frame_time > 30) := by
  constructor <;> simp [imageSlowWarning, videoSlowWarning]

/-- C9: whenever either input frame of `pictureInPicture` has zero area, the
main frame is returned unchanged together with the logged empty-input error,
for every parameter combination; the embedding is total, so no exception
reaches the caller. -/
theorem C9_composite_empty_input (main_image overlay_image : Mat)
    (img_ratio border_size x_margin : Nat) (y_offset_adjust : Int)
    (h : (main_image.isEmpty || overlay_image.isEmpty) = true) :
    pictureInPicture main_image overlay_image img_ratio border_size x_margin y_offset_adjust
      = (main_image, [LogEvent.pipEmptyError]) := by
  unfold pictureInPicture
  simp [h]

/-- Witness for C9: a 0×0 main frame against a 2×2 overlay. -/
theorem C9_composite_empty_input_witness :
    (Mat.isEmpty ⟨0, 0, []⟩ || Mat.isEmpty ⟨2, 2, [1, 2, 3, 4]⟩) = true
    ∧ pictureInPicture ⟨0, 0, []⟩ ⟨2, 2, [1, 2, 3, 4]⟩ 3 3 30 (-100)
        = (⟨0, 0, []⟩, [LogEvent.pipEmptyError]) :=
  ⟨by decide, C9_composite_empty_input ⟨0, 0, []⟩ ⟨2, 2, [1, 2, 3, 4]⟩ 3 3 30 (-100) (by decide)⟩

/-- C4: for non-empty main and inset frames, whenever the computed placement
rectangle of the resized, bordered inset fails the bounds check in any
direction, `pictureInPicture` returns the main frame byte-for-byte unchanged —
the inset is pasted only when the full bordered region fits on all four
sides. -/
theorem C4_composite_bounds_safety (main_image overlay_image : Mat)
    (hm : main_image.isEmpty = false) (ho : overlay_image.isEmpty = false)
    (hfit : pipFitsCheck main_image overlay_image 3 3 30 (-100) = false) :
    (pictureInPicture main_image overlay_image 3 3 30 (-100)).1 = main_image := by
  unfold pictureInPicture
  simp only [hm, ho, hfit, Bool.or_self, Bool.false_or, Bool.if_false_left]
  split
  · rfl
  · split <;> rfl

/-- Witness for C4: a 100×100 main frame with a 10×10 inset, whose computed
`y_offset` is −89, failing the bounds check. -/
theorem C4_composite_bounds_safety_witness :
    Mat.isEmpty ⟨100, 100, []⟩ = false
    ∧ pipFitsCheck ⟨100, 100, []⟩ ⟨10, 10, []⟩ 3 3 30 (-100) = false
    ∧ (pictureInPicture ⟨100, 100, []⟩ ⟨10, 10, []⟩ 3 3 30 (-100)).1 = ⟨100, 100, []⟩ :=
  ⟨by decide, by decide,
   C4_composite_bounds_safety ⟨100, 100, []⟩ ⟨10, 10, []⟩ (by decide) (by decide) (by decide)⟩

/-- C7: `updateFrameStats` always increments the frame count and accumulates
all three time sums (never resetting them); exactly on every 30th recorded
frame it emits the instantaneous frame rate `30000 / elapsed_ms_since_last_sample`
together with the three running averages and resets only the sampling anchor,
which otherwise stays put; and `logSummary` emits nothing iff zero frames were
recorded. -/
theorem C7_tracker_sampling (t : PerfTracker) (now : Nat) (p i pp : ℚ) :
    ((updateFrameStats t now p i pp).2.isSome = true ↔ (t.frame_count + 1) % 30 = 0)
    ∧ (updateFrameStats t now p i pp).1.frame_count = t.frame_count + 1
    ∧ (updateFrameStats t now p i pp).1.total_processing_time = t.total_processing_time + p
    ∧ (updateFrameStats t now p i pp).1.total_ipm_time = t.total_ipm_time + i
    ∧ (updateFrameStats t now p i pp).1.total_pip_time = t.total_pip_time + pp
    ∧ (if (t.frame_count + 1) % 30 = 0 then
        (updateFrameStats t now p i pp).1.last_fps_time = now
        ∧ (updateFrameStats t now p i pp).2 =
            some ⟨30000 / (((now - t.last_fps_time) / 1000 : Nat) : ℚ),
                  (t.total_processing_time + p) / ((t.frame_count + 1 : Nat) : ℚ),
                  (t.total_ipm_time + i) / ((t.frame_count + 1 : Nat) : ℚ),
                  (t.total_pip_time + pp) / ((t.frame_count + 1 : Nat) : ℚ)⟩
      else
        (updateFrameStats t now p i pp).1.last_fps_time = t.last_fps_time
        ∧ (updateFrameStats t now p i pp).2 = none)
    ∧ (logSummary t = none ↔ t.frame_count = 0) := by
  by_cases h : (t.frame_count + 1) % 30 = 0 <;>
    simp [updateFrameStats, logSummary, h, Nat.pos_iff_ne_zero]

/-- The sort relation of `getImageFiles` is the lexicographic byte order of
`std::string::operator<`. -/
theorem strDataLe_total :
    IsTotal String (fun a b : String => a.data ≤ b.data) :=
  ⟨fun a b => le_total a.data b.data⟩

/-- Transitivity of the lexicographic string order used by `getImageFiles`. -/
theorem strDataLe_trans :
    IsTrans String (fun a b : String => a.data ≤ b.data) :=
  ⟨fun _ _ _ h₁ h₂ => le_trans h₁ h₂⟩

/-- C6: `getImageFiles` keeps exactly the regular files whose extension
matches `.jpg`, `.jpeg` or `.png` case-insensitively, sorted lexicographically;
in particular `b.jpg`, `a.png`, `c.JPG` come out as `a.png, b.jpg, c.JPG`, and
`.txt` / `.bmp` files are excluded. -/
theorem C6_image_listing (entries : List (String × Bool)) :
    List.Sorted (fun a b : String => a.data ≤ b.data) (getImageFiles entries)
    ∧ (∀ p : String, p ∈ getImageFiles entries ↔
        ((p, true) ∈ entries ∧ lowerStr (extensionOf p) ∈ valid_extensions))
    ∧ getImageFiles
        [("b.jpg", true), ("a.png", true), ("c.JPG", true), ("notes.txt", true), ("pic.bmp", true)]
        = ["a.png", "b.jpg", "c.JPG"] := by
  haveI := strDataLe_total
  haveI := strDataLe_trans
  refine ⟨List.sorted_insertionSort _ _, fun p => ?_, by decide⟩
  unfold getImageFiles
  rw [List.mem_insertionSort]
  simp only [List.mem_map, List.mem_filter, Bool.and_eq_true, decide_eq_true_eq]
  constructor
  · rintro ⟨⟨q, b⟩, ⟨hmem, hb, hext⟩, rfl⟩
    cases b
    · cases hb
    · exact ⟨hmem, hext⟩
  · rintro ⟨hmem, hext⟩
    exact ⟨(p, true), ⟨hmem, rfl, hext⟩, rfl⟩

/-- `updateFrameStats` always increments the frame counter by one. -/
theorem updateFrameStats_frame_count (t : PerfTracker) (now : Nat) (p i pp : ℚ) :
    (updateFrameStats t now p i pp).1.frame_count = t.frame_count + 1 := by
  by_cases h : (t.frame_count + 1) % 30 = 0 <;> simp [updateFrameStats, h]

/-- The loop body increments the tracker's frame count exactly for frames that
were read successfully. -/
theorem stepCore_tracker_count (fps : ℚ) (W H : Nat) {T : Type}
    (getPT : List (Int × Int) → List (Int × Int) → Option T)
    (warp : Mat → T → Nat → Nat → Mat)
    (timers : List (String × Nat)) (tracker : PerfTracker) (fn : Nat) (r : FrameRead) :
    (stepCore fps W H getPT warp timers tracker fn r).tracker.frame_count
      = tracker.frame_count + (if r.img.isEmpty then 0 else 1) := by
  by_cases h : r.img.isEmpty <;>
    simp [stepCore, h, updateFrameStats_frame_count]

/-- The loop body writes to the sink exactly for frames read successfully. -/
theorem stepCore_wrote (fps : ℚ) (W H : Nat) {T : Type}
    (getPT : List (Int × Int) → List (Int × Int) → Option T)
    (warp : Mat → T → Nat → Nat → Mat)
    (timers : List (String × Nat)) (tracker : PerfTracker) (fn : Nat) (r : FrameRead) :
    (stepCore fps W H getPT warp timers tracker fn r).wrote = !r.img.isEmpty := by
  by_cases h : r.img.isEmpty <;> simp [stepCore, h]

/-- Folding the loop adds one tracked frame and one written frame per
successful read, from any starting state. -/
theorem foldl_counts (fps : ℚ) (W H : Nat) {T : Type}
    (getPT : List (Int × Int) → List (Int × Int) → Option T)
    (warp : Mat → T → Nat → Nat → Mat) (frames : List FrameRead) :
    ∀ s : LoopState,
      (frames.foldl (stepFrame fps W H getPT warp) s).tracker.frame_count
        = s.tracker.frame_count + frames.countP (fun r => !r.img.isEmpty)
      ∧ (frames.foldl (stepFrame fps W H getPT warp) s).written
        = s.written + frames.countP (fun r => !r.img.isEmpty) := by
  induction frames with
  | nil => intro s; simp
  | cons r rs ih =>
    intro s
    rw [List.foldl_cons, List.countP_cons]
    obtain ⟨h1, h2⟩ := ih (stepFrame fps W H getPT warp s r)
    rw [h1, h2]
    have hc := stepCore_tracker_count fps W H getPT warp s.timers s.tracker (s.frame_number + 1) r
    have hw := stepCore_wrote fps W H getPT warp s.timers s.tracker (s.frame_number + 1) r
    constructor
    · show (stepCore fps W H getPT warp s.timers s.tracker (s.frame_number + 1) r).tracker.frame_count
          + rs.countP (fun r => !r.img.isEmpty) = _
      rw [hc]
      by_cases h : r.img.isEmpty <;> simp [h] <;> omega
    · show s.written
          + (if (stepCore fps W H getPT warp s.timers s.tracker (s.frame_number + 1) r).wrote
             then 1 else 0)
          + rs.countP (fun r => !r.img.isEmpty) = _
      rw [hw]
      by_cases h : r.img.isEmpty <;> simp [h] <;> omega

/-- C5: for every run of the image-sequence loop, the final frame count of the
performance tracker equals the number of frames read successfully (those not
skipped), which equals the number of frames written to the output sink; a
frame whose read fails contributes to neither. -/
theorem C5_frame_accounting (fps : ℚ) (W H : Nat) {T : Type}
    (getPT : List (Int × Int) → List (Int × Int) → Option T)
    (warp : Mat → T → Nat → Nat → Mat) (t0 : Nat) (frames : List FrameRead) :
    (processImageSequenceLoop fps W H getPT warp t0 frames).tracker.frame_count
      = frames.countP (fun r => !r.img.isEmpty)
    ∧ (processImageSequenceLoop fps W H getPT warp t0 frames).written
      = frames.countP (fun r => !r.img.isEmpty) := by
  have h := foldl_counts fps W H getPT warp frames (initLoopState t0)
  simpa [processImageSequenceLoop, initLoopState] using h

/-- Filtering a timer map never makes an absent key present. -/
theorem findTimer_filter_none (m : List (String × Nat)) (p : String × Nat → Bool) (op : String)
    (h : findTimer m op = none) : findTimer (m.filter p) op = none := by
  induction m with
  | nil => simp [findTimer]
  | cons c cs ih =>
    rw [findTimer] at h
    by_cases hc : c.1 = op
    · simp [hc] at h
    · rw [if_neg hc] at h
      by_cases hp : p c = true <;> simp [List.filter_cons, hp, findTimer, hc, ih h]

/-- Starting a timer under a different name leaves an absent key absent. -/
theorem findTimer_setTimer_ne (m : List (String × Nat)) (op op' : String) (t : Nat)
    (hne : op ≠ op') (h : findTimer m op = none) :
    findTimer (setTimer m op' t) op = none := by
  rw [setTimer, findTimer, if_neg (fun h' => hne h'.symm)]
  exact findTimer_filter_none m _ op h

/-- A timer just started under a name is found under that name. -/
theorem findTimer_setTimer_self (m : List (String × Nat)) (op : String) (t : Nat) :
    findTimer (setTimer m op t) op = some t := by
  simp [setTimer, findTimer]

/-- `endTimer` on an absent name emits the "Timer not found" warning and
leaves the map unchanged. -/
theorem endTimer_not_found (m : List (String × Nat)) (op : String) (now : Nat)
    (h : findTimer m op = none) :
    endTimer m op now = (m, LogEvent.timerNotFound op) := by
  simp [endTimer, h]

/-- `endTimer` on a present name logs the elapsed time and erases the entry. -/
theorem endTimer_found (m : List (String × Nat)) (op : String) (now s : Nat)
    (h : findTimer m op = some s) :
    endTimer m op now
      = (m.filter (fun e => e.1 ≠ op), LogEvent.timerElapsed op (((now - s : Nat) : ℚ) / 1000)) := by
  simp [endTimer, h]

/-- `pictureInPicture` emits at most one event, and only an error event. -/
theorem pip_events_cases (a b : Mat) (r bo xm : Nat) (ya : Int) :
    (pictureInPicture a b r bo xm ya).2 = []
    ∨ (pictureInPicture a b r bo xm ya).2 = [LogEvent.pipEmptyError]
    ∨ (pictureInPicture a b r bo xm ya).2 = [LogEvent.pipFailed] := by
  by_cases h0 : (a.isEmpty || b.isEmpty) = true
  · simp [pictureInPicture, h0]
  · by_cases h1 : (pipGeom a b r bo xm ya).new_width = 0 ∨ (pipGeom a b r bo xm ya).new_height = 0
    · simp [pictureInPicture, h0, h1]
    · by_cases h2 : pipFitsCheck a b r bo xm ya = true
      · simp [pictureInPicture, h0, h1, h2]
      · simp [pictureInPicture, h0, h1, h2]

/-- The `updateFrameStats` emission block contains no timer events. -/
theorem fpsEmissionEvents_counts (o : Option FpsEmission) :
    countTnf (fpsEmissionEvents o) = 0 ∧ (fpsEmissionEvents o).countP isIpmElapsed = 0 := by
  cases o <;> simp [fpsEmissionEvents, countTnf, isIpmElapsed]

/-- For a successfully read frame, the loop body emits exactly one
"Timer not found for operation: IPM_Transform" warning, no elapsed-time entry
for the rectification timer under either name, and keeps the key
"IPM_Transform" absent from the timer map. -/
theorem stepCore_timer_mismatch (fps : ℚ) (W H : Nat) {T : Type}
    (getPT : List (Int × Int) → List (Int × Int) → Option T)
    (warp : Mat → T → Nat → Nat → Mat)
    (timers : List (String × Nat)) (tracker : PerfTracker) (fn : Nat) (r : FrameRead)
    (h : r.img.isEmpty = false) (hinv : findTimer timers "IPM_Transform" = none) :
    countTnf (stepCore fps W H getPT warp timers tracker fn r).newEvents = 1
    ∧ (stepCore fps W H getPT warp timers tracker fn r).newEvents.countP isIpmElapsed = 0
    ∧ findTimer (stepCore fps W H getPT warp timers tracker fn r).timers "IPM_Transform"
        = none := by
  have h1 : findTimer (setTimer timers "IPM Transform" r.tIpmStart) "IPM_Transform" = none :=
    findTimer_setTimer_ne _ _ _ _ (by decide) hinv
  have e1 := endTimer_not_found (setTimer timers "IPM Transform" r.tIpmStart) "IPM_Transform"
    r.tIpmEnd h1
  have h2 := findTimer_setTimer_self (setTimer timers "IPM Transform" r.tIpmStart) "PIP_Overlay"
    r.tPipStart
  have e2 := endTimer_found
    (setTimer (setTimer timers "IPM Transform" r.tIpmStart) "PIP_Overlay" r.tPipStart)
    "PIP_Overlay" r.tPipEnd r.tPipStart h2
  have h3 : findTimer
      ((setTimer (setTimer timers "IPM Transform" r.tIpmStart) "PIP_Overlay" r.tPipStart).filter
        (fun e => e.1 ≠ "PIP_Overlay")) "IPM_Transform" = none :=
    findTimer_filter_none _ _ _ (findTimer_setTimer_ne _ _ _ _ (by decide) h1)
  have hfe := fpsEmissionEvents_counts
    (updateFrameStats tracker r.tEnd (((r.tEnd - r.tStart : Nat) : ℚ) / 1000)
      (((r.tIpmEnd - r.tIpmStart : Nat) : ℚ) / 1000)
      (((r.tPipEnd - r.tPipStart : Nat) : ℚ) / 1000)).2
  simp only [decide_not] at e2 h3
  rcases pip_events_cases (cvResize r.img W H) (IPM getPT warp (cvResize r.img W H)) 3 3 30 (-100)
    with hp | hp | hp <;>
  cases hu : (updateFrameStats tracker r.tEnd (((r.tEnd - r.tStart : Nat) : ℚ) / 1000)
      (((r.tIpmEnd - r.tIpmStart : Nat) : ℚ) / 1000)
      (((r.tPipEnd - r.tPipStart : Nat) : ℚ) / 1000)).2 <;>
  by_cases hs : imageSlowWarning fps (((r.tEnd - r.tStart : Nat) : ℚ) / 1000) = true <;>
  simp [stepCore, h, e1, e2, h3, hp, hu, hs, fpsEmissionEvents, countTnf, isIpmElapsed,
    List.countP_append, List.countP_cons]

/-- Folding the loop from a state whose timer map lacks the key
"IPM_Transform" adds one timer-mismatch warning per successful read, never
logs a rectification elapsed time, and preserves the key's absence. -/
theorem foldl_timer_mismatch (fps : ℚ) (W H : Nat) {T : Type}
    (getPT : List (Int × Int) → List (Int × Int) → Option T)
    (warp : Mat → T → Nat → Nat → Mat) (frames : List FrameRead) :
    ∀ s : LoopState, findTimer s.timers "IPM_Transform" = none →
      countTnf (frames.foldl (stepFrame fps W H getPT warp) s).events
        = countTnf s.events + frames.countP (fun r => !r.img.isEmpty)
      ∧ (frames.foldl (stepFrame fps W H getPT warp) s).events.countP isIpmElapsed
        = s.events.countP isIpmElapsed
      ∧ findTimer (frames.foldl (stepFrame fps W H getPT warp) s).timers "IPM_Transform"
        = none := by
  induction frames with
  | nil => intro s hs; simp [hs]
  | cons r rs ih =>
    intro s hs
    rw [List.foldl_cons, List.countP_cons]
    by_cases h : r.img.isEmpty
    · have hstep : stepCore fps W H getPT warp s.timers s.tracker (s.frame_number + 1) r
          = { timers := s.timers, tracker := s.tracker,
              newEvents := [.readFail r.path], wrote := false } := by
        simp [stepCore, h]
      obtain ⟨i1, i2, i3⟩ := ih (stepFrame fps W H getPT warp s r) (by simp [stepFrame, hstep, hs])
      refine ⟨?_, ?_, i3⟩
      · rw [i1]
        simp [stepFrame, hstep, countTnf, List.countP_append, h]
      · rw [i2]
        simp [stepFrame, hstep, isIpmElapsed, List.countP_append]
    · rw [Bool.not_eq_true] at h
      obtain ⟨c1, c2, c3⟩ := stepCore_timer_mismatch fps W H getPT warp s.timers s.tracker
        (s.frame_number + 1) r h hs
      obtain ⟨i1, i2, i3⟩ := ih (stepFrame fps W H getPT warp s r) (by simpa [stepFrame] using c3)
      refine ⟨?_, ?_, i3⟩
      · rw [i1]
        simp [stepFrame, countTnf, List.countP_append, h]
        rw [show (stepCore fps W H getPT warp s.timers s.tracker (s.frame_number + 1)
              r).newEvents.countP _ = countTnf (stepCore fps W H getPT warp s.timers s.tracker
              (s.frame_number + 1) r).newEvents from rfl, c1]
        omega
      · rw [i2]
        simp [stepFrame, List.countP_append, c2]

/-- C10: in image-sequence mode, every successfully read frame makes the run
emit exactly one "Timer not found for operation: IPM_Transform" warning —
the rectification timer is started as "IPM Transform" (`main.cpp` line 223)
but ended as "IPM_Transform" (line 227) — and consequently a named-timer
elapsed time for rectification is never logged in that mode. -/
theorem C10_ipm_timer_name_mismatch (fps : ℚ) (W H : Nat) {T : Type}
    (getPT : List (Int × Int) → List (Int × Int) → Option T)
    (warp : Mat → T → Nat → Nat → Mat) (t0 : Nat) (frames : List FrameRead) :
    countTnf (processImageSequenceLoop fps W H getPT warp t0 frames).events
      = frames.countP (fun r => !r.img.isEmpty)
    ∧ (processImageSequenceLoop fps W H getPT warp t0 frames).events.countP isIpmElapsed
      = 0 := by
  have h := foldl_timer_mismatch fps W H getPT warp frames (initLoopState t0) (by rfl)
  constructor
  · have := h.1
    simpa [processImageSequenceLoop, initLoopState, countTnf] using this
  · have := h.2.1
    simpa [processImageSequenceLoop, initLoopState] using this

end IPMPipeline
